import Mathlib

/-!
Verification development for the Aternos Guard server
(`server.js`, authenticated variant).

The definitions below are a shallow embedding of the connection
lifecycle controller, the credential/session store, the user-management
handlers, the log ring buffer and the config sanitation, translated
from the JavaScript source.  Timers are modelled by a boolean (the
module-level variable holding the handle) together with a count of
pending callbacks in the runtime; the protocol-client instance is
modelled the same way (`bot` variable, count of live instances).
Times are natural-number milliseconds.
-/

namespace AternosGuard

/-! ## Connection lifecycle controller -/

/-- Observed phase of the connection (`botStatus` in the source:
"stopped" / "connecting" / "online" / "error"). -/
inductive BotStatus
  | stopped
  | connecting
  | online
  | error
deriving DecidableEq, Repr

/-- Server reachability (`serverStatus`: "unknown" / "online" / "offline"). -/
inductive ServerStatus
  | unknown
  | online
  | offline
deriving DecidableEq, Repr

/-- The module-level mutable state of the lifecycle controller.
`bot` mirrors the `bot` variable being non-null; `liveBots` counts
protocol-client instances created and not yet quit.  `reconnectTimer`
mirrors the variable being non-null; `pendingReconnects` counts
reconnect timeout callbacks pending in the runtime. -/
structure GuardState where
  isRunning : Bool
  botStatus : BotStatus
  serverStatus : ServerStatus
  reconnectAttempts : Nat
  botStartTime : Option Nat
  lastPing : Option Nat
  lastBotEventAt : Nat
  keepAlivePulseCount : Nat
  bot : Bool
  liveBots : Nat
  reconnectTimer : Bool
  pendingReconnects : Nat
  pingTimer : Bool
  healthTimer : Bool
deriving DecidableEq, Repr

/-- Source `clearReconnectTimer()`: cancel the pending reconnect callback and
null the variable. -/
def clearReconnectTimer (st : GuardState) : GuardState :=
  if st.reconnectTimer then
    { st with reconnectTimer := false, pendingReconnects := st.pendingReconnects - 1 }
  else st

/-- Source `stopPingTimer()`. -/
def stopPingTimer (st : GuardState) : GuardState :=
  { st with pingTimer := false }

/-- Source `stopHealthTimer()`. -/
def stopHealthTimer (st : GuardState) : GuardState :=
  { st with healthTimer := false }

/-- Source `quitBot(reason)`: quit the instance, detach listeners, null the
variable. -/
def quitBot (st : GuardState) : GuardState :=
  if st.bot then { st with bot := false, liveBots := st.liveBots - 1 }
  else st

/-- Source `queueReconnect(reason)`: no-op unless running and no timer is
already stored; otherwise bump the attempt counter, set the phase to
connecting, and schedule one timeout. -/
def queueReconnect (st : GuardState) : GuardState :=
  if !st.isRunning then st
  else if st.reconnectTimer then st
  else
    { st with
      reconnectAttempts := st.reconnectAttempts + 1,
      botStatus := .connecting,
      reconnectTimer := true,
      pendingReconnects := st.pendingReconnects + 1 }

/-- Source `createBot()` with the outcome of `mineflayer.createBot` supplied
as `ok` (false = the call threw synchronously). -/
def createBot (ok : Bool) (now : Nat) (st : GuardState) : GuardState :=
  if !st.isRunning then st
  else
    let st1 := quitBot (stopPingTimer (clearReconnectTimer st))
    let st2 := { st1 with
      botStatus := .connecting, serverStatus := .unknown, lastBotEventAt := now }
    if ok then { st2 with bot := true, liveBots := st2.liveBots + 1 }
    else queueReconnect st2

/-- Source `startBot(actor)`: returns the `{success}` flag together with the
new state. -/
def startBot (ok : Bool) (now : Nat) (st : GuardState) : Bool × GuardState :=
  if st.isRunning then (false, st)
  else
    let st1 := { st with
      isRunning := true, botStartTime := none, reconnectAttempts := 0,
      keepAlivePulseCount := 0, lastBotEventAt := now, healthTimer := true }
    (true, createBot ok now st1)

/-- Source `stopBot(actor)`. -/
def stopBot (now : Nat) (st : GuardState) : Bool × GuardState :=
  if !st.isRunning then (false, st)
  else
    let st1 :=
      quitBot (stopHealthTimer (stopPingTimer (clearReconnectTimer
        { st with isRunning := false })))
    (true, { st1 with
      botStatus := .stopped, serverStatus := .unknown, lastBotEventAt := now })

/-- Body of the reconnect timeout callback: the fired timer leaves the
runtime, the variable is nulled, then `createBot()` runs if still
running.  No-op when no callback is pending. -/
def reconnectFire (ok : Bool) (now : Nat) (st : GuardState) : GuardState :=
  if st.pendingReconnects = 0 then st
  else
    let st1 := { st with
      reconnectTimer := false,
      pendingReconnects := st.pendingReconnects - 1 }
    if !st1.isRunning then st1 else createBot ok now st1

/-- The state changes of the `kicked` handler up to (excluding) its
`queueReconnect` call. -/
def kickedBody (now : Nat) (st : GuardState) : GuardState :=
  let st1 := stopPingTimer st
  { st1 with lastBotEventAt := now, botStatus := .error, serverStatus := .offline }

/-- Source `bot.on("kicked", ...)`; fires only while listeners are attached. -/
def onKicked (now : Nat) (st : GuardState) : GuardState :=
  if !st.bot then st else queueReconnect (kickedBody now st)

/-- The state changes of the `error` handler up to its
`queueReconnect` call; `refused` is `err.code === "ECONNREFUSED"`. -/
def errorBody (refused : Bool) (now : Nat) (st : GuardState) : GuardState :=
  let st0 := stopPingTimer st
  let st1 := { st0 with lastBotEventAt := now, botStatus := .error }
  if refused then { st1 with serverStatus := .offline } else st1

/-- Source `bot.on("error", ...)`. -/
def onError (refused : Bool) (now : Nat) (st : GuardState) : GuardState :=
  if !st.bot then st else queueReconnect (errorBody refused now st)

/-- The state changes of the `end` handler up to its conditional
`queueReconnect` call. -/
def endBody (now : Nat) (st : GuardState) : GuardState :=
  let st1 := stopPingTimer st
  { st1 with
    lastBotEventAt := now,
    botStatus := if st.isRunning then .connecting else .stopped,
    serverStatus := .unknown }

/-- Source `bot.on("end", ...)`. -/
def onEnd (now : Nat) (st : GuardState) : GuardState :=
  if !st.bot then st
  else if st.isRunning then queueReconnect (endBody now st)
  else endBody now st

/-- Source `bot.once("login", ...)`: go online, reset the attempt counter,
keep or set the start time, start the keep-alive interval. -/
def onLogin (now : Nat) (st : GuardState) : GuardState :=
  if !st.bot then st
  else
    let st1 := { st with
      botStatus := .online, serverStatus := .online, reconnectAttempts := 0,
      botStartTime := some (st.botStartTime.getD now),
      lastPing := some now, lastBotEventAt := now }
    let st2 := stopPingTimer st1
    { st2 with pingTimer := true }

/-- Source `bot.on("spawn", ...)`: refresh the activity timestamp. -/
def onSpawn (now : Nat) (st : GuardState) : GuardState :=
  if !st.bot then st else { st with lastBotEventAt := now }

/-- Source `bot.on("messagestr", ...)` and the raw `keep_alive` listener. -/
def onMessage (now : Nat) (st : GuardState) : GuardState :=
  if !st.bot then st else { st with lastBotEventAt := now, lastPing := some now }

/-- One firing of the keep-alive interval.  `hasEntity` is
`bot.entity` being non-null, `lookOk` is whether `bot.look` succeeded
(a throw skips the rest of the `try` block). -/
def pingTick (hasEntity lookOk : Bool) (now : Nat) (st : GuardState) : GuardState :=
  if !st.pingTimer then st
  else if !st.isRunning || !st.bot || !hasEntity then st
  else if lookOk then
    { st with
      keepAlivePulseCount := st.keepAlivePulseCount + 1,
      lastBotEventAt := now, lastPing := some now }
  else st

/-- The stale-connection teardown performed by the health sweep before
it queues a reconnect. -/
def healthStaleBody (st : GuardState) : GuardState :=
  let st1 := quitBot (stopPingTimer st)
  { st1 with botStatus := .error, serverStatus := .unknown }

/-- The stale threshold `Math.max(config.pingInterval * 2, 90_000)`. -/
def staleThreshold (pingInterval : Nat) : Nat :=
  max (pingInterval * 2) 90000

/-- One firing of the health-sweep interval. -/
def healthTick (pingInterval now : Nat) (st : GuardState) : GuardState :=
  if !st.healthTimer then st
  else if !st.isRunning then st
  else if st.botStatus = .online ∧ staleThreshold pingInterval < now - st.lastBotEventAt then
    queueReconnect (healthStaleBody st)
  else if (st.botStatus = .error ∨ st.botStatus = .connecting) ∧ !st.reconnectTimer then
    queueReconnect st
  else st

/-- External and internal events driving the controller. -/
inductive Ev
  | start (ok : Bool) (now : Nat)
  | stop (now : Nat)
  | reconnect (ok : Bool) (now : Nat)
  | login (now : Nat)
  | spawn (now : Nat)
  | kicked (now : Nat)
  | err (refused : Bool) (now : Nat)
  | ended (now : Nat)
  | ping (hasEntity lookOk : Bool) (now : Nat)
  | health (pingInterval now : Nat)
  | message (now : Nat)
deriving DecidableEq, Repr

/-- Step function: dispatch one event. -/
def step (ev : Ev) (st : GuardState) : GuardState :=
  match ev with
  | .start ok now => (startBot ok now st).2
  | .stop now => (stopBot now st).2
  | .reconnect ok now => reconnectFire ok now st
  | .login now => onLogin now st
  | .spawn now => onSpawn now st
  | .kicked now => onKicked now st
  | .err refused now => onError refused now st
  | .ended now => onEnd now st
  | .ping hasEntity lookOk now => pingTick hasEntity lookOk now st
  | .health pingInterval now => healthTick pingInterval now st
  | .message now => onMessage now st

/-- The module-level initial state. -/
def initState : GuardState :=
  { isRunning := false, botStatus := .stopped, serverStatus := .unknown,
    reconnectAttempts := 0, botStartTime := none, lastPing := none,
    lastBotEventAt := 0, keepAlivePulseCount := 0, bot := false, liveBots := 0,
    reconnectTimer := false, pendingReconnects := 0,
    pingTimer := false, healthTimer := false }

/-- Run a sequence of events from the initial state. -/
def run (evs : List Ev) : GuardState :=
  evs.foldl (fun st e => step e st) initState

/-- The controller's structural invariant: at most one live
protocol-client instance, the `bot` variable in sync with it, at most
one pending reconnect callback, the `reconnectTimer` variable in sync
with it, and no pending reconnect while not running. -/
def Inv (st : GuardState) : Prop :=
  st.liveBots ≤ 1 ∧ (st.bot = true ↔ st.liveBots = 1) ∧
  st.pendingReconnects ≤ 1 ∧ (st.reconnectTimer = true ↔ st.pendingReconnects = 1) ∧
  (st.isRunning = false → st.pendingReconnects = 0)

instance (st : GuardState) : Decidable (Inv st) := by
  unfold Inv; infer_instance

lemma inv_init : Inv initState := by decide

lemma inv_queueReconnect {st : GuardState} (h : Inv st) : Inv (queueReconnect st) := by
  obtain ⟨h1, h2, h3, h4, h5⟩ := h
  rcases hrun : st.isRunning <;> rcases htim : st.reconnectTimer <;>
    simp_all [queueReconnect, Inv] <;> omega

lemma inv_clearReconnectTimer {st : GuardState} (h : Inv st) :
    Inv (clearReconnectTimer st) := by
  obtain ⟨h1, h2, h3, h4, h5⟩ := h
  rcases htim : st.reconnectTimer <;>
    simp_all [clearReconnectTimer, Inv] <;> omega

lemma inv_quitBot {st : GuardState} (h : Inv st) : Inv (quitBot st) := by
  obtain ⟨h1, h2, h3, h4, h5⟩ := h
  rcases hbot : st.bot <;> simp_all [quitBot, Inv] <;> omega

lemma inv_stopPingTimer {st : GuardState} (h : Inv st) : Inv (stopPingTimer st) := h

lemma inv_stopHealthTimer {st : GuardState} (h : Inv st) : Inv (stopHealthTimer st) := h

lemma quitBot_bot (st : GuardState) : (quitBot st).bot = false := by
  unfold quitBot
  split <;> simp_all

lemma inv_createBot {st : GuardState} (h : Inv st) (ok : Bool) (now : Nat) :
    Inv (createBot ok now st) := by
  obtain ⟨h1, h2, h3, h4, h5⟩ := h
  rcases hrun : st.isRunning <;> rcases htim : st.reconnectTimer <;>
    rcases hbot : st.bot <;> rcases ok <;>
    simp_all [createBot, clearReconnectTimer, stopPingTimer, quitBot,
      queueReconnect, Inv] <;>
    omega

lemma inv_startBot {st : GuardState} (h : Inv st) (ok : Bool) (now : Nat) :
    Inv (startBot ok now st).2 := by
  unfold startBot
  split
  · exact h
  · obtain ⟨h1, h2, h3, h4, h5⟩ := h
    refine inv_createBot ?_ ok now
    refine ⟨?_, ?_, ?_, ?_, ?_⟩ <;> simp_all [Inv]

/-- After `clearReconnectTimer` no reconnect callback is pending,
provided the timer variable was in sync. -/
lemma clearReconnectTimer_cleared {st : GuardState}
    (h3 : st.pendingReconnects ≤ 1)
    (h4 : st.reconnectTimer = true ↔ st.pendingReconnects = 1) :
    (clearReconnectTimer st).pendingReconnects = 0 ∧
      (clearReconnectTimer st).reconnectTimer = false := by
  rcases htim : st.reconnectTimer <;>
    simp_all [clearReconnectTimer] <;> omega

lemma inv_stopBot {st : GuardState} (h : Inv st) (now : Nat) :
    Inv (stopBot now st).2 := by
  obtain ⟨h1, h2, h3, h4, h5⟩ := h
  rcases hrun : st.isRunning <;> rcases htim : st.reconnectTimer <;>
    rcases hbot : st.bot <;>
    simp_all [stopBot, clearReconnectTimer, stopPingTimer, stopHealthTimer,
      quitBot, Inv] <;> omega

lemma inv_reconnectFire {st : GuardState} (h : Inv st) (ok : Bool) (now : Nat) :
    Inv (reconnectFire ok now st) := by
  unfold reconnectFire
  obtain ⟨h1, h2, h3, h4, h5⟩ := h
  split
  · exact ⟨h1, h2, h3, h4, h5⟩
  · next hp =>
    have hmid : Inv { st with
        reconnectTimer := false,
        pendingReconnects := st.pendingReconnects - 1 } := by
      refine ⟨?_, ?_, ?_, ?_, ?_⟩ <;> simp_all [Inv] <;> omega
    dsimp only
    split
    · exact hmid
    · exact inv_createBot hmid ok now

lemma inv_onLogin {st : GuardState} (h : Inv st) (now : Nat) :
    Inv (onLogin now st) := by
  obtain ⟨h1, h2, h3, h4, h5⟩ := h
  rcases hbot : st.bot <;>
    simp_all [onLogin, stopPingTimer, Inv]

lemma inv_onKicked {st : GuardState} (h : Inv st) (now : Nat) :
    Inv (onKicked now st) := by
  unfold onKicked
  split
  · exact h
  · obtain ⟨h1, h2, h3, h4, h5⟩ := h
    exact inv_queueReconnect ⟨h1, h2, h3, h4, h5⟩

lemma inv_onError {st : GuardState} (h : Inv st) (refused : Bool) (now : Nat) :
    Inv (onError refused now st) := by
  unfold onError
  split
  · exact h
  · obtain ⟨h1, h2, h3, h4, h5⟩ := h
    have hbody : Inv (errorBody refused now st) := by
      rcases refused <;> simp_all [errorBody, stopPingTimer, Inv]
    exact inv_queueReconnect hbody

lemma inv_onEnd {st : GuardState} (h : Inv st) (now : Nat) :
    Inv (onEnd now st) := by
  unfold onEnd
  obtain ⟨h1, h2, h3, h4, h5⟩ := h
  have hbody : Inv (endBody now st) := by
    simp_all [endBody, stopPingTimer, Inv]
  split
  · exact ⟨h1, h2, h3, h4, h5⟩
  · split
    · exact inv_queueReconnect hbody
    · exact hbody

lemma inv_healthTick {st : GuardState} (h : Inv st) (pingInterval now : Nat) :
    Inv (healthTick pingInterval now st) := by
  unfold healthTick
  obtain ⟨h1, h2, h3, h4, h5⟩ := h
  split
  · exact ⟨h1, h2, h3, h4, h5⟩
  · split
    · exact ⟨h1, h2, h3, h4, h5⟩
    · split
      · have hbody : Inv (healthStaleBody st) := by
          have := @inv_quitBot (stopPingTimer st) ⟨h1, h2, h3, h4, h5⟩
          simp_all [healthStaleBody, stopPingTimer, quitBot, Inv]
        exact inv_queueReconnect hbody
      · split
        · exact inv_queueReconnect ⟨h1, h2, h3, h4, h5⟩
        · exact ⟨h1, h2, h3, h4, h5⟩

lemma inv_step {st : GuardState} (h : Inv st) (ev : Ev) : Inv (step ev st) := by
  cases ev with
  | start ok now => exact inv_startBot h ok now
  | stop now => exact inv_stopBot h now
  | reconnect ok now => exact inv_reconnectFire h ok now
  | login now => exact inv_onLogin h now
  | spawn now =>
    obtain ⟨h1, h2, h3, h4, h5⟩ := h
    rcases hbot : st.bot <;> simp_all [step, onSpawn, Inv]
  | kicked now => exact inv_onKicked h now
  | err refused now => exact inv_onError h refused now
  | ended now => exact inv_onEnd h now
  | ping hasEntity lookOk now =>
    obtain ⟨h1, h2, h3, h4, h5⟩ := h
    simp only [step, pingTick]
    split
    · exact ⟨h1, h2, h3, h4, h5⟩
    · split
      · exact ⟨h1, h2, h3, h4, h5⟩
      · split
        · exact ⟨h1, h2, h3, h4, h5⟩
        · exact ⟨h1, h2, h3, h4, h5⟩
  | health pingInterval now => exact inv_healthTick h pingInterval now
  | message now =>
    obtain ⟨h1, h2, h3, h4, h5⟩ := h
    rcases hbot : st.bot <;> simp_all [step, onMessage, Inv]

lemma inv_run (evs : List Ev) : Inv (run evs) := by
  have hgen : ∀ (l : List Ev) (st : GuardState), Inv st →
      Inv (l.foldl (fun s e => step e s) st) := by
    intro l
    induction l with
    | nil => intro st h; exact h
    | cons e t ih => intro st h; exact ih _ (inv_step h e)
  exact hgen evs initState inv_init

/-! ## Credential and session store -/

/-- The three entries of `ROLE_PERMISSIONS` (`VALID_ROLES`). -/
inductive Role
  | admin
  | operator
  | viewer
deriving DecidableEq, Repr

/-- A user record as stored in `config.users`. -/
structure User where
  id : String
  name : String
  role : Role
  token : String
  createdAt : String
  lastLoginAt : Option String
deriving DecidableEq, Repr

/-- Source `SESSION_TTL_MS = 14 * 24 * 60 * 60 * 1000`. -/
def SESSION_TTL_MS : Nat := 14 * 24 * 60 * 60 * 1000

/-- A value of the `sessions` map. -/
structure Session where
  userId : String
  expiresAt : Nat
deriving DecidableEq, Repr

/-- The `sessions` map, keyed by session token. -/
abbrev SessionMap := List (String × Session)

/-- Source `sessions.get(tok)`. -/
def sessionsGet (m : SessionMap) (tok : String) : Option Session :=
  (m.find? (fun p => p.1 = tok)).map Prod.snd

/-- Source `sessions.delete(tok)`. -/
def sessionsDelete (m : SessionMap) (tok : String) : SessionMap :=
  m.filter (fun p => p.1 ≠ tok)

/-- The in-place mutation `session.expiresAt = e` on the entry stored
under `tok`. -/
def sessionsSetExpiry (m : SessionMap) (tok : String) (e : Nat) : SessionMap :=
  m.map (fun p => if p.1 = tok then (p.1, { p.2 with expiresAt := e }) else p)

/-- Source `pruneExpiredSessions()` (the 60s sweep). -/
def pruneExpiredSessions (now : Nat) (m : SessionMap) : SessionMap :=
  m.filter (fun p => ¬ p.2.expiresAt ≤ now)

/-- Source `revokeSessionsForUser(userId)`. -/
def revokeSessionsForUser (userId : String) (m : SessionMap) : SessionMap :=
  m.filter (fun p => p.2.userId ≠ userId)

/-- Source `resolveAuthFromToken(sessionToken)`, with `Date.now()` supplied as
`now`; returns the resolved pair and the updated session map.  A `none`
token models both `null` and the empty string (both falsy). -/
def resolveAuthFromToken (now : Nat) (users : List User) (m : SessionMap)
    (sessionToken : Option String) : Option (User × Session) × SessionMap :=
  match sessionToken with
  | none => (none, m)
  | some tok =>
    if tok = "" then (none, m)
    else
      match sessionsGet m tok with
      | none => (none, m)
      | some session =>
        if session.expiresAt ≤ now then (none, sessionsDelete m tok)
        else
          match users.find? (fun u => u.id = session.userId) with
          | none => (none, sessionsDelete m tok)
          | some user =>
            let session1 := { session with expiresAt := now + SESSION_TTL_MS }
            (some (user, session1), sessionsSetExpiry m tok (now + SESSION_TTL_MS))

/-- Source `createSession(user)` with the generated random token supplied. -/
def createSession (freshTok : String) (user : User) (now : Nat) (m : SessionMap) :
    String × SessionMap :=
  (freshTok, m ++ [(freshTok, { userId := user.id, expiresAt := now + SESSION_TTL_MS })])

lemma sessionsGet_cons (k : String) (v : Session) (t : SessionMap) (tok : String) :
    sessionsGet ((k, v) :: t) tok = if k = tok then some v else sessionsGet t tok := by
  unfold sessionsGet
  by_cases hk : k = tok <;> simp [List.find?_cons, hk]

lemma sessionsDelete_cons (k : String) (v : Session) (t : SessionMap) (tok : String) :
    sessionsDelete ((k, v) :: t) tok =
      if k = tok then sessionsDelete t tok else (k, v) :: sessionsDelete t tok := by
  unfold sessionsDelete
  by_cases hk : k = tok <;> simp [List.filter, hk]

lemma sessionsSetExpiry_cons (k : String) (v : Session) (t : SessionMap)
    (tok : String) (e : Nat) :
    sessionsSetExpiry ((k, v) :: t) tok e =
      (if k = tok then (k, { v with expiresAt := e }) else (k, v)) ::
        sessionsSetExpiry t tok e := by
  unfold sessionsSetExpiry
  by_cases hk : k = tok <;> simp [hk]

lemma sessionsGet_delete_self (m : SessionMap) (tok : String) :
    sessionsGet (sessionsDelete m tok) tok = none := by
  induction m with
  | nil => rfl
  | cons p t ih =>
    obtain ⟨k, v⟩ := p
    rw [sessionsDelete_cons]
    by_cases hk : k = tok
    · simpa [hk] using ih
    · rw [if_neg hk, sessionsGet_cons, if_neg hk]
      exact ih

lemma sessionsGet_setExpiry_self (m : SessionMap) (tok : String) (e : Nat) :
    ∀ s, sessionsGet m tok = some s →
      sessionsGet (sessionsSetExpiry m tok e) tok = some { s with expiresAt := e } := by
  induction m with
  | nil => intro s h; simp [sessionsGet] at h
  | cons p t ih =>
    intro s h
    obtain ⟨k, v⟩ := p
    rw [sessionsGet_cons] at h
    rw [sessionsSetExpiry_cons]
    by_cases hk : k = tok
    · rw [if_pos hk] at h ⊢
      rw [sessionsGet_cons, if_pos hk]
      rw [Option.some_inj] at h
      rw [h]
    · rw [if_neg hk] at h ⊢
      rw [sessionsGet_cons, if_neg hk]
      exact ih s h

/-! ## User management handlers -/

/-- Source `config.users.filter(u => u.role === "admin").length`. -/
def adminCount (users : List User) : Nat :=
  (users.filter (fun u => u.role = Role.admin)).length

/-- Replace the first element satisfying `p` — the JS in-place mutation
of the object returned by `Array.prototype.find`. -/
def updateFirst (p : α → Bool) (f : α → α) : List α → List α
  | [] => []
  | x :: xs => if p x then f x :: xs else x :: updateFirst p f xs

/-- The request body of `PATCH /api/users/:id` after the handler's
coercions: `role` is `some r` exactly when `req.body.role` is one of
`VALID_ROLES`; `name` and `token` are the trimmed strings (empty =
absent or blank); `rotateToken` is `req.body.rotateToken === true`. -/
structure PatchBody where
  role : Option Role
  name : String
  token : String
  rotateToken : Bool
deriving DecidableEq, Repr

inductive PatchOutcome
  | notFound
  | selfDemotion
  | lastAdmin
  | conflict
  | ok (includeToken : Bool)
deriving DecidableEq, Repr

/-- The `PATCH /api/users/:id` handler body (after auth/permission
middleware).  `fresh` supplies the token produced by the
`makeUserToken` retry loop when `rotateToken` is requested. -/
def patchUser (actor : User) (targetId : String) (body : PatchBody) (fresh : String)
    (users : List User) (m : SessionMap) :
    PatchOutcome × List User × SessionMap :=
  match users.find? (fun u => u.id = targetId) with
  | none => (.notFound, users, m)
  | some target =>
    let nextRole := body.role.getD target.role
    if target.id = actor.id ∧ nextRole ≠ .admin then (.selfDemotion, users, m)
    else if target.role = .admin ∧ nextRole ≠ .admin ∧ adminCount users ≤ 1 then
      (.lastAdmin, users, m)
    else
      let name1 := if body.name ≠ "" then body.name else target.name
      if body.token ≠ "" ∧ users.any (fun u => u.id ≠ target.id ∧ u.token = body.token) then
        -- the duplicate-token rejection fires after the in-place
        -- name/role mutations and before any session revocation
        (.conflict,
         updateFirst (fun u => u.id = targetId)
           (fun u => { u with name := name1, role := nextRole }) users,
         m)
      else
        let token1 :=
          if body.token ≠ "" then
            (if body.rotateToken then fresh else body.token)
          else if body.rotateToken then fresh else target.token
        let includeToken := body.token ≠ "" ∨ body.rotateToken
        let revoke := nextRole ≠ target.role ∨ body.token ≠ "" ∨ body.rotateToken
        (.ok includeToken,
         updateFirst (fun u => u.id = targetId)
           (fun u => { u with name := name1, role := nextRole, token := token1 }) users,
         if revoke then revokeSessionsForUser target.id m else m)

inductive DeleteOutcome
  | notFound
  | selfDelete
  | lastAdmin
  | ok
deriving DecidableEq, Repr

/-- The `DELETE /api/users/:id` handler body. -/
def deleteUser (actor : User) (targetId : String)
    (users : List User) (m : SessionMap) :
    DeleteOutcome × List User × SessionMap :=
  match users.find? (fun u => u.id = targetId) with
  | none => (.notFound, users, m)
  | some target =>
    if target.id = actor.id then (.selfDelete, users, m)
    else if target.role = .admin ∧ adminCount users ≤ 1 then (.lastAdmin, users, m)
    else
      (.ok, users.filter (fun u => u.id ≠ target.id), revokeSessionsForUser target.id m)

/-! ## Startup user loading (`loadConfig`) -/

/-- A raw element of `config.json`'s `users` array, after JavaScript's
string coercions: empty string models an absent/falsy field. -/
structure RawUser where
  isObject : Bool
  id : String
  name : String
  role : String
  token : String
  createdAt : String
  lastLoginAt : Option String
deriving DecidableEq, Repr

/-- Membership test against `VALID_ROLES`. -/
def roleOfString (s : String) : Option Role :=
  if s = "admin" then some .admin
  else if s = "operator" then some .operator
  else if s = "viewer" then some .viewer
  else none

/-- Source `normalizeUser(rawUser)`, with the generated UUID and the current
ISO timestamp supplied. -/
def normalizeUser (freshId nowIso : String) (r : RawUser) : Option User :=
  if !r.isObject then none
  else
    let name := r.name.trim
    let token := r.token.trim
    let role := (roleOfString r.role).getD .viewer
    if name = "" ∨ token = "" then none
    else
      some
        { id := if r.id = "" then freshId else r.id
          name := name
          role := role
          token := token
          createdAt := if r.createdAt = "" then nowIso else r.createdAt
          lastLoginAt := r.lastLoginAt }

/-- Source `raw.users.map(normalizeUser).filter(Boolean)` (or `[]` when the
field is not an array); `freshId i` is the UUID generated for the
`i`-th element. -/
def usersOfRaw (freshId : Nat → String) (nowIso : String)
    (rawUsers : Option (List RawUser)) : List User :=
  match rawUsers with
  | none => []
  | some l => l.enum.filterMap (fun p => normalizeUser (freshId p.1) nowIso p.2)

/-- The seeded initial admin (`loadConfig` lines 101-112); `tok` is
`process.env.ADMIN_TOKEN || makeUserToken("admin")`. -/
def seedAdmin (tok id nowIso : String) : User :=
  { id := id, name := "Owner", role := .admin, token := tok,
    createdAt := nowIso, lastLoginAt := none }

/-- The `users` part of `loadConfig()`: normalize, then seed an admin
when the list came out empty. -/
def loadUsers (freshId : Nat → String) (nowIso : String)
    (rawUsers : Option (List RawUser)) (seedTok seedId : String) : List User :=
  let us := usersOfRaw freshId nowIso rawUsers
  if us.isEmpty then [seedAdmin seedTok seedId nowIso] else us

/-! ## Admin-count bookkeeping -/

lemma adminCount_cons (u : User) (t : List User) :
    adminCount (u :: t) = (if u.role = Role.admin then 1 else 0) + adminCount t := by
  unfold adminCount
  by_cases h : u.role = Role.admin <;> simp [List.filter_cons, h, Nat.add_comm]

/-- Counting admins through the in-place mutation of the first element
matched by `Array.prototype.find`. -/
lemma adminCount_updateFirst (p : User → Bool) (f : User → User) :
    ∀ (users : List User) (target : User), users.find? p = some target →
      adminCount (updateFirst p f users) + (if target.role = Role.admin then 1 else 0)
        = adminCount users + (if (f target).role = Role.admin then 1 else 0) := by
  intro users
  induction users with
  | nil => intro target h; simp at h
  | cons u t ih =>
    intro target h
    by_cases hp : p u
    · rw [List.find?_cons_of_pos _ hp] at h
      rw [Option.some_inj] at h
      subst h
      rw [updateFirst, if_pos hp, adminCount_cons, adminCount_cons]
      omega
    · rw [List.find?_cons_of_neg _ (by simpa using hp)] at h
      have := ih target h
      rw [updateFirst, if_neg hp, adminCount_cons, adminCount_cons]
      omega

/-- With pairwise-distinct ids, `filter(u => u.id !== target.id)`
removes exactly the found element. -/
lemma adminCount_filter_ne (tid : String) :
    ∀ (users : List User) (target : User),
      (users.map (fun u => u.id)).Nodup →
      users.find? (fun u => u.id = tid) = some target →
      adminCount (users.filter (fun u => u.id ≠ target.id))
          + (if target.role = Role.admin then 1 else 0)
        = adminCount users := by
  intro users
  induction users with
  | nil => intro target _ h; simp at h
  | cons u t ih =>
    intro target hnd h
    rw [List.map_cons, List.nodup_cons] at hnd
    obtain ⟨hu, hnd'⟩ := hnd
    by_cases hp : u.id = tid
    · rw [List.find?_cons_of_pos _ (by simpa using hp)] at h
      rw [Option.some_inj] at h
      subst h
      have hrest : List.filter (fun v => !decide (v.id = u.id)) t = t := by
        apply List.filter_eq_self.2
        intro v hv
        simp only [Bool.not_eq_true', decide_eq_false_iff_not]
        intro hvid
        exact hu (by rw [← hvid]; exact List.mem_map_of_mem (fun w => w.id) hv)
      simp [List.filter_cons, hrest, adminCount_cons]
      omega
    · rw [List.find?_cons_of_neg _ (by simpa using hp)] at h
      have htid : target.id = tid := by
        have := List.find?_some h
        simpa using this
      have hne : u.id ≠ target.id := by rw [htid]; exact hp
      have hih := ih target hnd' h
      simp only [ne_eq, decide_not] at hih
      simp [List.filter_cons, hne, adminCount_cons]
      omega

/-! ## Event log ring buffer -/

/-- A log entry (`addLog`): the id models `Date.now() + Math.random()`. -/
structure LogEntry where
  id : Nat
  time : String
  level : String
  message : String
deriving DecidableEq, Repr

/-- Source `MAX_LOGS = 500`. -/
def MAX_LOGS : Nat := 500

/-- Source `addLog`: `logs.push(entry); if (logs.length > MAX_LOGS) logs.shift()`. -/
def addLog (e : LogEntry) (logs : List LogEntry) : List LogEntry :=
  let l := logs ++ [e]
  if MAX_LOGS < l.length then l.tail else l

/-- The last `n` elements of a list, in order. -/
def lastN (n : Nat) (l : List α) : List α :=
  l.drop (l.length - n)

/-- Source `GET /api/logs`: `logs.slice(-Math.min(limit, MAX_LOGS))` with
`limit = toPositiveInt(req.query.limit, 100)`; `limitRaw` is the
`parseInt` result of the query parameter. -/
def recentLogs (limitRaw : Option Int) (logs : List LogEntry) : List LogEntry :=
  let limit : Int := match limitRaw with
    | some n => if 0 < n then n else 100
    | none => 100
  let n := min limit (MAX_LOGS : Int)
  lastN n.toNat logs

/-! ## Config sanitation -/

/-- Source `toPositiveInt(value, fallback)`: the argument is the result of
`parseInt(value, 10)` (`none` = `NaN`). -/
def toPositiveInt (parsed : Option Int) (fallback : Int) : Int :=
  match parsed with
  | some n => if 0 < n then n else fallback
  | none => fallback

/-- The numeric fields of `DEFAULT_CONFIG` and of a config record. -/
structure ConfigNums where
  port : Int
  reconnectDelay : Int
  pingInterval : Int
deriving DecidableEq, Repr

/-- Source `DEFAULT_CONFIG`'s numeric fields. -/
def defaultConfigNums : ConfigNums :=
  { port := 39695, reconnectDelay := 15000, pingInterval := 45000 }

/-- The numeric part of `loadConfig()`: spread-merge the parsed file
over the defaults, then sanitize each field.  The outer `Option` is
presence of the field in the parsed file, the inner one the `parseInt`
result of its value. -/
def loadConfigNums (rawPort rawReconnectDelay rawPingInterval : Option (Option Int)) :
    ConfigNums :=
  { port := toPositiveInt (rawPort.getD (some defaultConfigNums.port))
      defaultConfigNums.port
    reconnectDelay := toPositiveInt
      (rawReconnectDelay.getD (some defaultConfigNums.reconnectDelay))
      defaultConfigNums.reconnectDelay
    pingInterval := toPositiveInt
      (rawPingInterval.getD (some defaultConfigNums.pingInterval))
      defaultConfigNums.pingInterval }

/-- The numeric part of `POST /api/config`: a field present in the
body (`!== undefined`) is sanitized with the current value as the
fallback; an absent field is kept. -/
def postConfigNums (bodyPort bodyReconnectDelay bodyPingInterval : Option (Option Int))
    (cfg : ConfigNums) : ConfigNums :=
  { port := match bodyPort with
      | none => cfg.port
      | some p => toPositiveInt p cfg.port
    reconnectDelay := match bodyReconnectDelay with
      | none => cfg.reconnectDelay
      | some p => toPositiveInt p cfg.reconnectDelay
    pingInterval := match bodyPingInterval with
      | none => cfg.pingInterval
      | some p => toPositiveInt p cfg.pingInterval }

/-! ## Start/Stop operation sequences -/

/-- The two operator-facing lifecycle operations. -/
inductive SSOp
  | start (ok : Bool) (now : Nat)
  | stop (now : Nat)
deriving DecidableEq, Repr

def ssEv : SSOp → Ev
  | .start ok now => .start ok now
  | .stop now => .stop now

/-- Run a sequence of Start/Stop calls from the initial state. -/
def runSS (ops : List SSOp) : GuardState := run (ops.map ssEv)

lemma runSS_append_stop (ops : List SSOp) (now : Nat) :
    runSS (ops ++ [SSOp.stop now]) = (stopBot now (runSS ops)).2 := by
  unfold runSS run
  rw [List.map_append, List.foldl_append]
  rfl

lemma stopBot_pending {st : GuardState} (h : Inv st) (now : Nat) :
    ((stopBot now st).2).pendingReconnects = 0 := by
  obtain ⟨h1, h2, h3, h4, h5⟩ := h
  rcases hrun : st.isRunning <;> rcases htim : st.reconnectTimer <;>
    rcases hbot : st.bot <;>
    simp_all [stopBot, clearReconnectTimer, stopPingTimer, stopHealthTimer,
      quitBot] <;> omega

/-! ## Claim theorems -/

/-- C1: for every finite sequence of Start and Stop operations, at most
one protocol-client instance is live after every prefix, and
immediately after any Stop call completes no reconnect timer is
pending (the Stop path cancels a pending reconnect timer, and a
rejected Stop can only happen while not running, where no timer can be
pending). -/
theorem startStop_single_client_and_stop_cancels_timer :
    (∀ ops : List SSOp, (runSS ops).liveBots ≤ 1) ∧
    (∀ (ops : List SSOp) (now : Nat),
      (runSS (ops ++ [SSOp.stop now])).pendingReconnects = 0) := by
  constructor
  · intro ops
    exact (inv_run (ops.map ssEv)).1
  · intro ops now
    rw [runSS_append_stop]
    exact stopBot_pending (inv_run (ops.map ssEv)) now

/-- C5: while a reconnect timer is pending, `queueReconnect` is a
no-op (no second timer, no new attempt count, no state change at all),
and along any event sequence at most one reconnect timer is ever
pending. -/
theorem queueReconnect_idempotent_at_most_one_timer :
    (∀ st : GuardState, st.reconnectTimer = true → queueReconnect st = st) ∧
    (∀ evs : List Ev, (run evs).pendingReconnects ≤ 1) := by
  constructor
  · intro st h
    unfold queueReconnect
    rcases hrun : st.isRunning <;> simp [h]
  · intro evs
    exact (inv_run evs).2.2.1

/-- A state with a pending reconnect timer, for the witness below. -/
def pendingTimerState : GuardState :=
  { initState with
    isRunning := true
    reconnectTimer := true
    pendingReconnects := 1 }

theorem queueReconnect_idempotent_at_most_one_timer_witness :
    queueReconnect pendingTimerState = pendingTimerState :=
  queueReconnect_idempotent_at_most_one_timer.1 pendingTimerState rfl

/-- C8: Start while already running fails and changes nothing (state,
counters, timers all untouched); Stop while already stopped fails and
changes nothing. -/
theorem start_stop_rejections_are_noops :
    ∀ (st : GuardState) (ok : Bool) (now now2 : Nat),
      (st.isRunning = true → startBot ok now st = (false, st)) ∧
      (st.isRunning = false → stopBot now2 st = (false, st)) := by
  intro st ok now now2
  constructor
  · intro h
    unfold startBot
    simp [h]
  · intro h
    unfold stopBot
    simp [h]

/-- A running state, for the witness below. -/
def runningState : GuardState := { initState with isRunning := true }

theorem start_stop_rejections_are_noops_witness :
    startBot true 5 runningState = (false, runningState) ∧
      stopBot 7 initState = (false, initState) :=
  ⟨(start_stop_rejections_are_noops runningState true 5 7).1 rfl,
   (start_stop_rejections_are_noops initState true 5 7).2 rfl⟩

/-- C6 counterexample: Start succeeds, the client logs in, then a
`kicked` event fires with no reconnect timer pending.  The handler
sets the phase to error, but `queueReconnect` — reached in the same
handler — overwrites it with connecting, so the observed phase after
the kicked event is connecting, not Error as the claim states
(exactly one reconnect timer is queued, as claimed). -/
theorem kicked_observed_phase_counterexample :
    (run [Ev.start true 0, Ev.login 1, Ev.kicked 2]).botStatus
        = BotStatus.connecting ∧
      (run [Ev.start true 0, Ev.login 1, Ev.kicked 2]).botStatus
        ≠ BotStatus.error ∧
      (run [Ev.start true 0, Ev.login 1, Ev.kicked 2]).pendingReconnects = 1 := by
  decide

/-- C6 (amended): when the client emits kicked / error / end with
listeners attached, the keep-alive timer is halted; the kicked and
error handlers set the phase to Error before queueing (the end handler
sets Connecting when desired is Running, Stopped otherwise);
reachability becomes Offline always on kicked, on error exactly when
the error signals connection refusal, and Unknown on end; when desired
is NotRunning nothing is queued and kicked/error leave the phase
Error; when desired is Running exactly one reconnect timer is pending
afterwards, and the observed phase is Error only if a timer was
already pending — a freshly queued reconnect sets it to Connecting. -/
theorem kicked_error_end_transitions :
    ∀ (st : GuardState) (now : Nat) (refused : Bool),
      st.bot = true → Inv st →
      ((onKicked now st).pingTimer = false ∧
        (onError refused now st).pingTimer = false ∧
        (onEnd now st).pingTimer = false) ∧
      ((kickedBody now st).botStatus = BotStatus.error ∧
        (errorBody refused now st).botStatus = BotStatus.error ∧
        onKicked now st = queueReconnect (kickedBody now st) ∧
        onError refused now st = queueReconnect (errorBody refused now st)) ∧
      ((kickedBody now st).serverStatus = ServerStatus.offline ∧
        (errorBody refused now st).serverStatus
          = (if refused then ServerStatus.offline else st.serverStatus) ∧
        (endBody now st).serverStatus = ServerStatus.unknown) ∧
      (st.isRunning = false →
        (onEnd now st).botStatus = BotStatus.stopped ∧
        (onKicked now st).botStatus = BotStatus.error ∧
        (onKicked now st).pendingReconnects = st.pendingReconnects ∧
        (onError refused now st).pendingReconnects = st.pendingReconnects) ∧
      (st.isRunning = true →
        (onKicked now st).pendingReconnects = 1 ∧
        (onError refused now st).pendingReconnects = 1 ∧
        (onEnd now st).pendingReconnects = 1 ∧
        (onEnd now st).botStatus = BotStatus.connecting ∧
        (onKicked now st).botStatus
          = (if st.reconnectTimer then BotStatus.error else BotStatus.connecting)) := by
  intro st now refused hbot hInv
  obtain ⟨h1, h2, h3, h4, h5⟩ := hInv
  rcases hrun : st.isRunning <;> rcases htim : st.reconnectTimer <;> rcases refused <;>
    simp_all [onKicked, onError, onEnd, kickedBody, errorBody, endBody,
      queueReconnect, stopPingTimer] <;> omega

theorem kicked_error_end_transitions_witness :
    (onKicked 2 (run [Ev.start true 0, Ev.login 1])).pendingReconnects = 1 :=
  ((kicked_error_end_transitions (run [Ev.start true 0, Ev.login 1]) 2 false
      (by decide) (by decide)).2.2.2.2 (by decide)).1

/-- C7: while desired is Running, a health-sweep tick (a) on a stale
Online connection equals `queueReconnect` applied to the teardown
state — which has the client quit, keep-alive halted, phase Error and
reachability Unknown — leaving exactly one reconnect timer pending;
and (b) on an Error or Connecting phase with no reconnect timer
pending it queues exactly one reconnect. -/
theorem health_sweep_checks :
    ∀ (st : GuardState) (pingInterval now : Nat),
      st.healthTimer = true → st.isRunning = true → Inv st →
      (st.botStatus = BotStatus.online →
        staleThreshold pingInterval < now - st.lastBotEventAt →
        healthTick pingInterval now st = queueReconnect (healthStaleBody st) ∧
        (healthStaleBody st).bot = false ∧
        (healthStaleBody st).pingTimer = false ∧
        (healthStaleBody st).botStatus = BotStatus.error ∧
        (healthStaleBody st).serverStatus = ServerStatus.unknown ∧
        (healthTick pingInterval now st).pendingReconnects = 1) ∧
      ((st.botStatus = BotStatus.error ∨ st.botStatus = BotStatus.connecting) →
        st.reconnectTimer = false →
        healthTick pingInterval now st = queueReconnect st ∧
        (healthTick pingInterval now st).pendingReconnects = 1 ∧
        (healthTick pingInterval now st).reconnectTimer = true) := by
  intro st pingInterval now hh hr hInv
  obtain ⟨h1, h2, h3, h4, h5⟩ := hInv
  constructor
  · intro hon hstale
    rcases htim : st.reconnectTimer <;> rcases hbot : st.bot <;>
      simp_all [healthTick, healthStaleBody, queueReconnect, quitBot,
        stopPingTimer] <;> omega
  · intro hec htim
    have hnotOnline : ¬ st.botStatus = BotStatus.online := by
      rcases hec with h | h <;> rw [h] <;> intro hc <;> cases hc
    rcases hec with h | h <;>
      simp_all [healthTick, queueReconnect] <;> omega

/-- A stale Online running state for the C7 witness. -/
def staleOnlineState : GuardState :=
  { initState with
    isRunning := true
    botStatus := .online
    bot := true
    liveBots := 1
    pingTimer := true
    healthTimer := true
    lastBotEventAt := 0 }

theorem health_sweep_checks_witness :
    (healthTick 45000 100000 staleOnlineState).pendingReconnects = 1 ∧
      (healthStaleBody staleOnlineState).bot = false :=
  ⟨((health_sweep_checks staleOnlineState 45000 100000 rfl rfl (by decide)).1
      (by decide) (by decide)).2.2.2.2.2,
   ((health_sweep_checks staleOnlineState 45000 100000 rfl rfl (by decide)).1
      (by decide) (by decide)).2.1⟩

/-- C4: a successful resolve at time `now` returns the session with
its expiry set to exactly `now + SESSION_TTL_MS` (14 days), strictly
in the future, and the store holds the slid session under the same
handle; a stored session whose expiry is `≤ now` is never returned —
it is purged from the store and the resolve returns absent. -/
theorem resolve_slides_expiry_and_purges_expired :
    (∀ (now : Nat) (users : List User) (m : SessionMap) (t : String)
        (u : User) (s : Session),
      (resolveAuthFromToken now users m (some t)).1 = some (u, s) →
      s.expiresAt = now + SESSION_TTL_MS ∧ now < s.expiresAt ∧
        sessionsGet (resolveAuthFromToken now users m (some t)).2 t = some s) ∧
    (∀ (now : Nat) (users : List User) (m : SessionMap) (t : String) (s : Session),
      t ≠ "" → sessionsGet m t = some s → s.expiresAt ≤ now →
      (resolveAuthFromToken now users m (some t)).1 = none ∧
        sessionsGet (resolveAuthFromToken now users m (some t)).2 t = none) := by
  constructor
  · intro now users m t u s h
    simp only [resolveAuthFromToken] at h ⊢
    by_cases ht : t = ""
    · rw [if_pos ht] at h
      simp at h
    · rw [if_neg ht] at h ⊢
      rcases hget : sessionsGet m t with _ | sess
      · rw [hget] at h
        simp at h
      · rw [hget] at h
        dsimp only at h ⊢
        by_cases hexp : sess.expiresAt ≤ now
        · rw [if_pos hexp] at h
          simp at h
        · rw [if_neg hexp] at h ⊢
          rcases hfind : users.find? (fun v => v.id = sess.userId) with _ | usr
          · rw [hfind] at h
            simp at h
          · rw [hfind] at h ⊢
            dsimp only at h ⊢
            simp only [Option.some_inj, Prod.mk.injEq] at h
            obtain ⟨-, hs⟩ := h
            subst hs
            refine ⟨rfl, ?_, ?_⟩
            · dsimp only
              unfold SESSION_TTL_MS
              omega
            · exact sessionsGet_setExpiry_self m t _ sess hget
  · intro now users m t s ht hget hexp
    simp only [resolveAuthFromToken]
    rw [if_neg ht, hget]
    dsimp only
    rw [if_pos hexp]
    exact ⟨rfl, sessionsGet_delete_self m t⟩

/-- A user for concrete examples and witnesses. -/
def aliceAdmin : User :=
  { id := "uA", name := "Alice", role := .admin, token := "tokA",
    createdAt := "t0", lastLoginAt := none }

/-- A second user for concrete examples and witnesses. -/
def bobOperator : User :=
  { id := "uB", name := "Bob", role := .operator, token := "tokB",
    createdAt := "t0", lastLoginAt := none }

theorem resolve_slides_expiry_and_purges_expired_witness :
    ((resolveAuthFromToken 50 [aliceAdmin]
        [("s1", { userId := "uA", expiresAt := 100 })] (some "s1")).1.map
        (fun p => p.2.expiresAt)) = some (50 + SESSION_TTL_MS) ∧
      sessionsGet (resolveAuthFromToken 200 [aliceAdmin]
        [("s1", { userId := "uA", expiresAt := 100 })] (some "s1")).2 "s1" = none := by
  constructor
  · have h := (resolve_slides_expiry_and_purges_expired.1 50 [aliceAdmin]
      [("s1", { userId := "uA", expiresAt := 100 })] "s1" aliceAdmin
      { userId := "uA", expiresAt := 50 + SESSION_TTL_MS } (by decide)).1
    decide
  · exact (resolve_slides_expiry_and_purges_expired.2 200 [aliceAdmin]
      [("s1", { userId := "uA", expiresAt := 100 })] "s1"
      { userId := "uA", expiresAt := 100 } (by decide) (by decide) (by decide)).2

/-- C3: the duplicate-token rejection in `PATCH /api/users/:id` fires
only after the in-place name/role mutations and before any session
revocation.  Concretely: Alice (admin) patches Bob (operator) with
`role: "viewer"` and a token colliding with Alice's.  The handler
answers 409 Conflict, yet Bob's role has been changed to viewer and
none of Bob's sessions were revoked — his old session handle still
resolves.  This contradicts the claim (and the handler's own
revoke-on-role-change logic): a role change must revoke all of the
user's sessions. -/
theorem patch_conflict_keeps_role_change_and_sessions :
    (patchUser aliceAdmin "uB"
        { role := some .viewer, name := "", token := "tokA", rotateToken := false }
        "fresh" [aliceAdmin, bobOperator]
        [("s1", { userId := "uB", expiresAt := 1000 })]).1
        = PatchOutcome.conflict ∧
      ((patchUser aliceAdmin "uB"
        { role := some .viewer, name := "", token := "tokA", rotateToken := false }
        "fresh" [aliceAdmin, bobOperator]
        [("s1", { userId := "uB", expiresAt := 1000 })]).2.1.find?
          (fun u => u.id = "uB")).map (fun u => u.role) = some Role.viewer ∧
      (patchUser aliceAdmin "uB"
        { role := some .viewer, name := "", token := "tokA", rotateToken := false }
        "fresh" [aliceAdmin, bobOperator]
        [("s1", { userId := "uB", expiresAt := 1000 })]).2.2
        = [("s1", { userId := "uB", expiresAt := 1000 })] ∧
      ((resolveAuthFromToken 0
        (patchUser aliceAdmin "uB"
          { role := some .viewer, name := "", token := "tokA", rotateToken := false }
          "fresh" [aliceAdmin, bobOperator]
          [("s1", { userId := "uB", expiresAt := 1000 })]).2.1
        [("s1", { userId := "uB", expiresAt := 1000 })] (some "s1")).1.map
          (fun p => (p.1.id, p.1.role))) = some ("uB", Role.viewer) := by
  decide

lemma one_le_adminCount_updateFirst (p : User → Bool) (f : User → User)
    (users : List User) (target : User)
    (hfind : users.find? p = some target)
    (hge : 1 ≤ adminCount users)
    (hok : target.role = Role.admin → (f target).role ≠ Role.admin →
      2 ≤ adminCount users) :
    1 ≤ adminCount (updateFirst p f users) := by
  have heq := adminCount_updateFirst p f users target hfind
  by_cases ht : target.role = Role.admin
  · by_cases hf : (f target).role = Role.admin
    · simp [ht, hf] at heq
      omega
    · have h2 := hok ht hf
      simp [ht, hf] at heq
      omega
  · simp [ht] at heq
    omega

lemma patch_preserves_admin (actor : User) (targetId : String) (body : PatchBody)
    (fresh : String) (users : List User) (m : SessionMap)
    (hge : 1 ≤ adminCount users) :
    1 ≤ adminCount (patchUser actor targetId body fresh users m).2.1 := by
  rcases hfind : users.find? (fun u => u.id = targetId) with _ | target
  · simp only [patchUser, hfind]
    exact hge
  · simp only [patchUser, hfind]
    split
    · exact hge
    · split
      · exact hge
      · next hlast =>
        split
        · exact one_le_adminCount_updateFirst _ _ users target hfind hge
            (fun ht hf => by
              have hf' : body.role.getD target.role ≠ Role.admin := by
                simpa using hf
              by_contra hc
              exact hlast ⟨ht, hf', by omega⟩)
        · exact one_le_adminCount_updateFirst _ _ users target hfind hge
            (fun ht hf => by
              have hf' : body.role.getD target.role ≠ Role.admin := by
                simpa using hf
              by_contra hc
              exact hlast ⟨ht, hf', by omega⟩)

lemma delete_preserves_admin (actor : User) (targetId : String)
    (users : List User) (m : SessionMap)
    (hnd : (users.map (fun u => u.id)).Nodup)
    (hge : 1 ≤ adminCount users) :
    1 ≤ adminCount (deleteUser actor targetId users m).2.1 := by
  rcases hfind : users.find? (fun u => u.id = targetId) with _ | target
  · simp only [deleteUser, hfind]
    exact hge
  · simp only [deleteUser, hfind]
    split
    · exact hge
    · split
      · exact hge
      · next hlast =>
        have heq := adminCount_filter_ne targetId users target hnd hfind
        simp only [ne_eq, decide_not] at heq ⊢
        by_cases ht : target.role = Role.admin
        · have h2 : ¬ adminCount users ≤ 1 := fun hc => hlast ⟨ht, hc⟩
          simp [ht] at heq
          omega
        · simp [ht] at heq
          omega

lemma patch_rejection_unchanged (actor : User) (targetId : String)
    (body : PatchBody) (fresh : String) (users : List User) (m : SessionMap)
    (hrej : (patchUser actor targetId body fresh users m).1 = PatchOutcome.notFound ∨
      (patchUser actor targetId body fresh users m).1 = PatchOutcome.selfDemotion ∨
      (patchUser actor targetId body fresh users m).1 = PatchOutcome.lastAdmin) :
    (patchUser actor targetId body fresh users m).2.1 = users ∧
      (patchUser actor targetId body fresh users m).2.2 = m := by
  rcases hfind : users.find? (fun u => u.id = targetId) with _ | target
  · simp only [patchUser, hfind]
    constructor <;> trivial
  · simp only [patchUser, hfind] at hrej ⊢
    by_cases hself : target.id = actor.id ∧ body.role.getD target.role ≠ Role.admin
    · rw [if_pos hself]
      constructor <;> rfl
    · rw [if_neg hself] at hrej ⊢
      by_cases hlast : target.role = Role.admin ∧
          body.role.getD target.role ≠ Role.admin ∧ adminCount users ≤ 1
      · rw [if_pos hlast]
        constructor <;> rfl
      · rw [if_neg hlast] at hrej
        by_cases hconf : body.token ≠ "" ∧
            (users.any fun u => decide (u.id ≠ target.id ∧ u.token = body.token)) = true
        · rw [if_pos hconf] at hrej
          rcases hrej with h | h | h <;> simp at h
        · rw [if_neg hconf] at hrej
          rcases hrej with h | h | h <;> simp at h

lemma delete_rejection_unchanged (actor : User) (targetId : String)
    (users : List User) (m : SessionMap)
    (hrej : (deleteUser actor targetId users m).1 ≠ DeleteOutcome.ok) :
    (deleteUser actor targetId users m).2.1 = users ∧
      (deleteUser actor targetId users m).2.2 = m := by
  rcases hfind : users.find? (fun u => u.id = targetId) with _ | target
  · simp only [deleteUser, hfind]
    constructor <;> trivial
  · simp only [deleteUser, hfind] at hrej ⊢
    by_cases hself : target.id = actor.id
    · rw [if_pos hself]
      constructor <;> rfl
    · rw [if_neg hself] at hrej ⊢
      by_cases hlast : target.role = Role.admin ∧ adminCount users ≤ 1
      · rw [if_pos hlast]
        constructor <;> rfl
      · rw [if_neg hlast] at hrej
        simp at hrej

/-- The self-demotion guard of `PATCH /api/users/:id` fires
unconditionally: whenever the target is the acting user and the
effective next role is not admin, the request is rejected, however
many admins exist. -/
lemma patch_rejects_self_demotion (actor : User) (targetId : String)
    (body : PatchBody) (fresh : String) (users : List User) (m : SessionMap)
    (target : User)
    (hfind : users.find? (fun u => u.id = targetId) = some target)
    (hself : target.id = actor.id)
    (hnext : body.role.getD target.role ≠ Role.admin) :
    (patchUser actor targetId body fresh users m).1 = PatchOutcome.selfDemotion := by
  simp only [patchUser, hfind]
  rw [if_pos ⟨hself, hnext⟩]

lemma patch_rejects_last_admin_demotion (actor : User) (targetId : String)
    (body : PatchBody) (fresh : String) (users : List User) (m : SessionMap)
    (target : User)
    (hfind : users.find? (fun u => u.id = targetId) = some target)
    (ht : target.role = Role.admin)
    (hnext : body.role.getD target.role ≠ Role.admin)
    (hcount : adminCount users ≤ 1) :
    (patchUser actor targetId body fresh users m).1 = PatchOutcome.selfDemotion ∨
      (patchUser actor targetId body fresh users m).1 = PatchOutcome.lastAdmin := by
  simp only [patchUser, hfind]
  by_cases hself : target.id = actor.id ∧ body.role.getD target.role ≠ Role.admin
  · rw [if_pos hself]
    exact Or.inl rfl
  · rw [if_neg hself, if_pos ⟨ht, hnext, hcount⟩]
    exact Or.inr rfl

lemma delete_rejects_last_admin (actor : User) (targetId : String)
    (users : List User) (m : SessionMap) (target : User)
    (hfind : users.find? (fun u => u.id = targetId) = some target) :
    (target.id = actor.id →
      (deleteUser actor targetId users m).1 = DeleteOutcome.selfDelete) ∧
    (target.role = Role.admin → adminCount users ≤ 1 →
      (deleteUser actor targetId users m).1 = DeleteOutcome.selfDelete ∨
        (deleteUser actor targetId users m).1 = DeleteOutcome.lastAdmin) := by
  simp only [deleteUser, hfind]
  constructor
  · intro hself
    rw [if_pos hself]
  · intro ht hcount
    by_cases hself : target.id = actor.id
    · rw [if_pos hself]
      exact Or.inl rfl
    · rw [if_neg hself, if_pos ⟨ht, hcount⟩]
      exact Or.inr rfl

lemma load_seeds_admin (freshId : Nat → String) (nowIso : String)
    (rawUsers : Option (List RawUser)) (seedTok seedId : String)
    (hempty : usersOfRaw freshId nowIso rawUsers = []) :
    loadUsers freshId nowIso rawUsers seedTok seedId
        = [seedAdmin seedTok seedId nowIso] ∧
      1 ≤ adminCount (loadUsers freshId nowIso rawUsers seedTok seedId) := by
  simp only [loadUsers, hempty]
  exact ⟨rfl, by simp [adminCount, seedAdmin]⟩

/-- C2: the system never drops to zero admins: `PATCH /api/users/:id`
preserves a positive admin count; `DELETE /api/users/:id` preserves it
(given pairwise-distinct user ids, which `crypto.randomUUID` provides);
the NotFound / self-demotion / last-admin rejections of PATCH and every
rejection of DELETE leave users and sessions unchanged; self-demotion
away from admin is rejected unconditionally — however many admins
exist; demoting the last admin is rejected, as is deleting yourself or
the last admin; and `loadConfig` seeds an admin whenever the loaded
user list is empty. -/
theorem admin_invariant_preserved :
    (∀ (actor : User) (targetId : String) (body : PatchBody) (fresh : String)
        (users : List User) (m : SessionMap),
      1 ≤ adminCount users →
      1 ≤ adminCount (patchUser actor targetId body fresh users m).2.1) ∧
    (∀ (actor : User) (targetId : String) (users : List User) (m : SessionMap),
      (users.map (fun u => u.id)).Nodup →
      1 ≤ adminCount users →
      1 ≤ adminCount (deleteUser actor targetId users m).2.1) ∧
    (∀ (actor : User) (targetId : String) (body : PatchBody) (fresh : String)
        (users : List User) (m : SessionMap),
      ((patchUser actor targetId body fresh users m).1 = PatchOutcome.notFound ∨
        (patchUser actor targetId body fresh users m).1 = PatchOutcome.selfDemotion ∨
        (patchUser actor targetId body fresh users m).1 = PatchOutcome.lastAdmin) →
      (patchUser actor targetId body fresh users m).2.1 = users ∧
        (patchUser actor targetId body fresh users m).2.2 = m) ∧
    (∀ (actor : User) (targetId : String) (users : List User) (m : SessionMap),
      (deleteUser actor targetId users m).1 ≠ DeleteOutcome.ok →
      (deleteUser actor targetId users m).2.1 = users ∧
        (deleteUser actor targetId users m).2.2 = m) ∧
    (∀ (actor : User) (targetId : String) (body : PatchBody) (fresh : String)
        (users : List User) (m : SessionMap) (target : User),
      users.find? (fun u => u.id = targetId) = some target →
      target.id = actor.id → body.role.getD target.role ≠ Role.admin →
      (patchUser actor targetId body fresh users m).1
        = PatchOutcome.selfDemotion) ∧
    (∀ (actor : User) (targetId : String) (body : PatchBody) (fresh : String)
        (users : List User) (m : SessionMap) (target : User),
      users.find? (fun u => u.id = targetId) = some target →
      target.role = Role.admin → body.role.getD target.role ≠ Role.admin →
      adminCount users ≤ 1 →
      (patchUser actor targetId body fresh users m).1 = PatchOutcome.selfDemotion ∨
        (patchUser actor targetId body fresh users m).1 = PatchOutcome.lastAdmin) ∧
    (∀ (actor : User) (targetId : String) (users : List User) (m : SessionMap)
        (target : User),
      users.find? (fun u => u.id = targetId) = some target →
      (target.id = actor.id →
        (deleteUser actor targetId users m).1 = DeleteOutcome.selfDelete) ∧
      (target.role = Role.admin → adminCount users ≤ 1 →
        (deleteUser actor targetId users m).1 = DeleteOutcome.selfDelete ∨
          (deleteUser actor targetId users m).1 = DeleteOutcome.lastAdmin)) ∧
    (∀ (freshId : Nat → String) (nowIso : String)
        (rawUsers : Option (List RawUser)) (seedTok seedId : String),
      usersOfRaw freshId nowIso rawUsers = [] →
      loadUsers freshId nowIso rawUsers seedTok seedId
          = [seedAdmin seedTok seedId nowIso] ∧
        1 ≤ adminCount (loadUsers freshId nowIso rawUsers seedTok seedId)) :=
  ⟨fun actor targetId body fresh users m hge =>
      patch_preserves_admin actor targetId body fresh users m hge,
   fun actor targetId users m hnd hge =>
      delete_preserves_admin actor targetId users m hnd hge,
   fun actor targetId body fresh users m hrej =>
      patch_rejection_unchanged actor targetId body fresh users m hrej,
   fun actor targetId users m hrej =>
      delete_rejection_unchanged actor targetId users m hrej,
   fun actor targetId body fresh users m target hfind hself hnext =>
      patch_rejects_self_demotion actor targetId body fresh users m target
        hfind hself hnext,
   fun actor targetId body fresh users m target hfind ht hnext hcount =>
      patch_rejects_last_admin_demotion actor targetId body fresh users m target
        hfind ht hnext hcount,
   fun actor targetId users m target hfind =>
      delete_rejects_last_admin actor targetId users m target hfind,
   fun freshId nowIso rawUsers seedTok seedId hempty =>
      load_seeds_admin freshId nowIso rawUsers seedTok seedId hempty⟩

/-- A third user so the self-demotion witness runs with two admins
present: the rejection is not the last-admin guard. -/
def carolAdmin : User :=
  { id := "uC", name := "Carol", role := .admin, token := "tokC",
    createdAt := "t0", lastLoginAt := none }

theorem admin_invariant_preserved_witness :
    1 ≤ adminCount (patchUser aliceAdmin "uB"
        { role := some .viewer, name := "", token := "", rotateToken := false }
        "fresh" [aliceAdmin, bobOperator] []).2.1 ∧
      1 ≤ adminCount (deleteUser aliceAdmin "uB" [aliceAdmin, bobOperator] []).2.1 ∧
      (patchUser aliceAdmin "uA"
        { role := some .viewer, name := "", token := "", rotateToken := false }
        "fresh" [aliceAdmin, carolAdmin] []).1 = PatchOutcome.selfDemotion :=
  ⟨admin_invariant_preserved.1 aliceAdmin "uB"
      { role := some .viewer, name := "", token := "", rotateToken := false }
      "fresh" [aliceAdmin, bobOperator] [] (by decide),
   admin_invariant_preserved.2.1 aliceAdmin "uB" [aliceAdmin, bobOperator] []
      (by decide) (by decide),
   admin_invariant_preserved.2.2.2.2.1 aliceAdmin "uA"
      { role := some .viewer, name := "", token := "", rotateToken := false }
      "fresh" [aliceAdmin, carolAdmin] [] aliceAdmin
      (by decide) (by decide) (by decide)⟩

/-! ## Log buffer lemmas -/

lemma lastN_of_le {l : List α} {n : Nat} (h : l.length ≤ n) : lastN n l = l := by
  unfold lastN
  rw [Nat.sub_eq_zero_of_le h, List.drop_zero]

lemma lastN_cons_of_le {x : α} {rest : List α} {n : Nat} (h : n ≤ rest.length) :
    lastN n (x :: rest) = lastN n rest := by
  unfold lastN
  rw [List.length_cons,
    show rest.length + 1 - n = (rest.length - n) + 1 by omega,
    List.drop_succ_cons]

lemma lastN_append_of_le (l₁ l₂ : List α) (n : Nat) (h : n ≤ l₂.length) :
    lastN n (l₁ ++ l₂) = lastN n l₂ := by
  unfold lastN
  rw [List.length_append,
    show l₁.length + l₂.length - n = l₁.length + (l₂.length - n) by omega,
    List.drop_append]

lemma lastN_length_le (n : Nat) (l : List α) : (lastN n l).length ≤ n := by
  unfold lastN
  rw [List.length_drop]
  omega

lemma addLog_length {e : LogEntry} {logs : List LogEntry}
    (h : logs.length ≤ MAX_LOGS) : (addLog e logs).length ≤ MAX_LOGS := by
  simp only [addLog]
  split
  · next hlen =>
    rw [List.length_tail, List.length_append]
    simp only [List.length_singleton]
    omega
  · next hlen =>
    rw [List.length_append] at hlen ⊢
    simp only [List.length_singleton] at hlen ⊢
    omega

lemma addLog_eq_lastN {e : LogEntry} {logs : List LogEntry}
    (h : logs.length ≤ MAX_LOGS) :
    addLog e logs = lastN MAX_LOGS (logs ++ [e]) := by
  simp only [addLog]
  split
  · next hlen =>
    rw [List.length_append, List.length_singleton] at hlen
    have hexact : logs.length = MAX_LOGS := by omega
    cases logs with
    | nil => simp [MAX_LOGS] at hexact
    | cons x rest =>
      rw [List.cons_append, List.tail_cons, lastN_cons_of_le]
      · rw [lastN_of_le]
        rw [List.length_append, List.length_singleton]
        rw [List.length_cons] at hexact
        omega
      · rw [List.length_append, List.length_singleton]
        rw [List.length_cons] at hexact
        omega
  · next hlen =>
    rw [List.length_append, List.length_singleton] at hlen
    rw [lastN_of_le]
    rw [List.length_append, List.length_singleton]
    omega

lemma foldl_addLog_eq_lastN :
    ∀ (es logs : List LogEntry), logs.length ≤ MAX_LOGS →
      es.foldl (fun l e => addLog e l) logs = lastN MAX_LOGS (logs ++ es) := by
  intro es
  induction es with
  | nil =>
    intro logs h
    rw [List.foldl_nil, List.append_nil, lastN_of_le h]
  | cons e rest ih =>
    intro logs h
    rw [List.foldl_cons, ih (addLog e logs) (addLog_length h)]
    rw [addLog_eq_lastN h]
    have hkey : ∀ m : List LogEntry, MAX_LOGS ≤ m.length →
        lastN MAX_LOGS (lastN MAX_LOGS m ++ rest) = lastN MAX_LOGS (m ++ rest) := by
      intro m hm
      conv_rhs => rw [← List.take_append_drop (m.length - MAX_LOGS) m]
      conv_rhs => rw [List.append_assoc]
      rw [lastN_append_of_le (m.take (m.length - MAX_LOGS)) _ _
        (by rw [List.length_append, List.length_drop]; omega)]
      rfl
    by_cases hlen : MAX_LOGS ≤ (logs ++ [e]).length
    · rw [hkey (logs ++ [e]) hlen, List.append_assoc, List.singleton_append]
    · rw [lastN_of_le (l := logs ++ [e]) (by omega),
        List.append_assoc, List.singleton_append]

/-- C9: the log buffer never exceeds `MAX_LOGS` (500) entries, and
after appending at least 500 entries to a buffer within capacity,
`GET /api/logs` with `limit = 500` returns exactly the last 500
appended entries in insertion order (oldest evicted first,
most-recent-last). -/
theorem log_buffer_bounded_and_recent :
    (∀ (e : LogEntry) (logs : List LogEntry),
      logs.length ≤ MAX_LOGS → (addLog e logs).length ≤ MAX_LOGS) ∧
    (∀ (es logs : List LogEntry),
      logs.length ≤ MAX_LOGS → MAX_LOGS ≤ es.length →
      recentLogs (some (MAX_LOGS : Int)) (es.foldl (fun l e => addLog e l) logs)
        = lastN MAX_LOGS es) := by
  constructor
  · intro e logs h
    exact addLog_length h
  · intro es logs hlogs hes
    rw [foldl_addLog_eq_lastN es logs hlogs]
    rw [lastN_append_of_le _ _ _ hes]
    unfold recentLogs
    have hposmin : (min (MAX_LOGS : Int) (MAX_LOGS : Int)).toNat = MAX_LOGS := by
      simp [MAX_LOGS]
    simp only [MAX_LOGS] at hposmin ⊢
    norm_num
    exact lastN_of_le (by simpa [MAX_LOGS] using lastN_length_le 500 es)

/-- Entries for the C9 witness: 501 appends overflow the buffer once. -/
def demoEntries : List LogEntry :=
  (List.range 501).map (fun i => { id := i, time := "t", level := "INFO", message := "m" })

theorem log_buffer_bounded_and_recent_witness :
    recentLogs (some (MAX_LOGS : Int))
        (demoEntries.foldl (fun l e => addLog e l) [])
      = lastN MAX_LOGS demoEntries :=
  log_buffer_bounded_and_recent.2 demoEntries []
    (by simp [MAX_LOGS])
    (by simp [demoEntries, MAX_LOGS])

/-! ## Config sanitation claim -/

lemma toPositiveInt_pos {p : Option Int} {fb : Int} (h : 0 < fb) :
    0 < toPositiveInt p fb := by
  unfold toPositiveInt
  rcases p with _ | n
  · exact h
  · by_cases hn : 0 < n <;> simp [hn] <;> omega

/-- C10: every config load and every config write leaves `port`,
`reconnectDelay` and `pingInterval` positive; a supplied value that
does not parse to a positive integer leaves the existing (or default)
value unchanged. -/
theorem config_numeric_fields_stay_positive :
    (∀ a b c : Option (Option Int),
      0 < (loadConfigNums a b c).port ∧
      0 < (loadConfigNums a b c).reconnectDelay ∧
      0 < (loadConfigNums a b c).pingInterval) ∧
    (∀ (bp br bi : Option (Option Int)) (cfg : ConfigNums),
      0 < cfg.port → 0 < cfg.reconnectDelay → 0 < cfg.pingInterval →
      0 < (postConfigNums bp br bi cfg).port ∧
      0 < (postConfigNums bp br bi cfg).reconnectDelay ∧
      0 < (postConfigNums bp br bi cfg).pingInterval) ∧
    (∀ (p : Option Int) (fb : Int), (∀ n, p = some n → n ≤ 0) →
      toPositiveInt p fb = fb) ∧
    (∀ (p : Option Int) (br bi : Option (Option Int)) (cfg : ConfigNums),
      (postConfigNums (some p) br bi cfg).port = toPositiveInt p cfg.port) ∧
    (∀ (p : Option Int) (bp bi : Option (Option Int)) (cfg : ConfigNums),
      (postConfigNums bp (some p) bi cfg).reconnectDelay
        = toPositiveInt p cfg.reconnectDelay) ∧
    (∀ (p : Option Int) (bp br : Option (Option Int)) (cfg : ConfigNums),
      (postConfigNums bp br (some p) cfg).pingInterval
        = toPositiveInt p cfg.pingInterval) := by
  refine ⟨?_, ?_, ?_, ?_, ?_, ?_⟩
  · intro a b c
    refine ⟨?_, ?_, ?_⟩ <;>
      exact toPositiveInt_pos (by norm_num [defaultConfigNums])
  · intro bp br bi cfg hp hr hi
    refine ⟨?_, ?_, ?_⟩ <;> unfold postConfigNums
    · rcases bp with _ | p
      · exact hp
      · exact toPositiveInt_pos hp
    · rcases br with _ | p
      · exact hr
      · exact toPositiveInt_pos hr
    · rcases bi with _ | p
      · exact hi
      · exact toPositiveInt_pos hi
  · intro p fb h
    rcases p with _ | n
    · rfl
    · have := h n rfl
      simp only [toPositiveInt]
      rw [if_neg (by omega)]
  · intro p br bi cfg
    rfl
  · intro p bp bi cfg
    rfl
  · intro p bp br cfg
    rfl

theorem config_numeric_fields_stay_positive_witness :
    (0 < (postConfigNums (some none) (some (some (-7))) none
        defaultConfigNums).port ∧
      0 < (postConfigNums (some none) (some (some (-7))) none
        defaultConfigNums).reconnectDelay ∧
      0 < (postConfigNums (some none) (some (some (-7))) none
        defaultConfigNums).pingInterval) ∧
      toPositiveInt (some (-7)) 15000 = 15000 :=
  ⟨config_numeric_fields_stay_positive.2.1 (some none) (some (some (-7))) none
      defaultConfigNums (by norm_num [defaultConfigNums])
      (by norm_num [defaultConfigNums]) (by norm_num [defaultConfigNums]),
   config_numeric_fields_stay_positive.2.2.1 (some (-7)) 15000
      (fun n hn => by
        rw [Option.some_inj] at hn
        omega)⟩

end AternosGuard
